import Mathlib

/-
Verification of the pplugins plugin-lifecycle manager (pplugins.py and its
prototype snapshot pplugins/plugins.py) against its natural-language
specification.

The embedding is shallow: the manager's registry (`self.plugins`, a Python
dict mapping plugin name to a record holding the two queues and the process
handle) becomes an association list; `multiprocessing.Process` liveness is
captured by explicit boolean fields describing how the process reacts to the
clean-shutdown signal and to SIGTERM; exceptions become `Except` / `Option`
error values.  Dict iteration order is insertion order, as in CPython.
-/

set_option autoImplicit false

namespace PPlugins

/-- Behaviour of the plugin code hosted by a worker process: whether the
process exits within the grace period after the clean-shutdown sentinel is
delivered, and whether it exits after terminate() (SIGTERM) plus join. -/
structure PluginBehavior where
  diesOnClean : Bool
  diesOnTerm : Bool
deriving DecidableEq, Repr

/-- A multiprocessing.Process handle as the manager observes it: the daemon
flag, current liveness (is_alive), and the hosted plugin's reaction to the
two shutdown mechanisms. -/
structure Process where
  daemon : Bool
  alive : Bool
  diesOnClean : Bool
  diesOnTerm : Bool
deriving DecidableEq, Repr

/-- PluginRunner.init (pplugins.py lines 62-71): stores the queues and sets
self.daemon = True; the process object is not yet started, so not alive. -/
def PluginRunner.init (b : PluginBehavior) : Process :=
  { daemon := true, alive := false,
    diesOnClean := b.diesOnClean, diesOnTerm := b.diesOnTerm }

/-- Process.start(): the OS process is spawned and becomes alive. -/
def Process.startProc (p : Process) : Process :=
  { p with alive := true }

/-- One entry of the manager's registry: the dict built in start_plugin with
keys name, events (manager-to-plugin queue, None is the shutdown sentinel),
messages (plugin-to-manager queue) and process. -/
structure PluginRecord where
  name : String
  events : List (Option String)
  messages : List String
  process : Process
deriving DecidableEq, Repr

/-- The manager's registry self.plugins: a Python dict from plugin name to
record, in insertion order. -/
abbrev Registry := List (String × PluginRecord)

/-- Dict lookup self.plugins[name] (first entry with the key; keys are
unique in an actual dict). -/
def lookupReg : Registry → String → Option PluginRecord
  | [], _ => none
  | (k, v) :: rest, key => if k = key then some v else lookupReg rest key

/-- Membership test: name in self.plugins. -/
def containsReg (st : Registry) (key : String) : Bool :=
  match lookupReg st key with
  | some _ => true
  | none => false

/-- Dict deletion del self.plugins[name]. -/
def eraseReg : Registry → String → Registry
  | [], _ => []
  | (k, v) :: rest, key =>
      if k = key then eraseReg rest key else (k, v) :: eraseReg rest key

/-- Number of entries stored under a key (0 or 1 in an actual dict). -/
def countKey : Registry → String → Nat
  | [], _ => 0
  | (k, _) :: rest, key => (if k = key then 1 else 0) + countKey rest key

/-- Every registered process is alive. -/
def allAlive : Registry → Bool
  | [] => true
  | (_, v) :: rest => v.process.alive && allAlive rest

/-- PluginManager.reap_plugins (pplugins.py lines 273-291): rebuilds
self.plugins keeping exactly the entries whose process.is_alive() holds
(the _living_plugins generator); dead entries are dropped with a warning. -/
def reap_plugins : Registry → Registry
  | [] => []
  | (k, v) :: rest =>
      if v.process.alive then (k, v) :: reap_plugins rest else reap_plugins rest

/-- Errors raised by start_plugin: the PluginError for an already-running
name, or the unchanged exception re-raised when constructing the
plugin_runner process object fails (except Exception: log; raise). -/
inductive StartErr (eps : Type) where
  | alreadyRunning (plugin : String)
  | ctorRaised (e : eps)
deriving DecidableEq, Repr

/-- The dict inserted on a successful start: fresh empty queues and the
freshly constructed, started runner process. -/
def newRecord (name : String) (b : PluginBehavior) : PluginRecord :=
  ⟨name, [], [], Process.startProc (PluginRunner.init b)⟩

/-- PluginManager.start_plugin (pplugins.py lines 179-211).  It reaps first,
raises PluginError if the name is still registered, then constructs the
plugin_runner process object (ctor models that constructor: error e is an
exception raised inside it, which start_plugin logs and re-raises), starts
the process and finally inserts the record.  The returned pair is the
registry state when the call ends (normally or by raising) together with the
raised error, if any. -/
def start_plugin {eps : Type} (st : Registry) (name : String)
    (ctor : Except eps PluginBehavior) : Registry × Option (StartErr eps) :=
  if containsReg (reap_plugins st) name then
    (reap_plugins st, some (StartErr.alreadyRunning name))
  else
    match ctor with
    | Except.error e => (reap_plugins st, some (StartErr.ctorRaised e))
    | Except.ok b => (reap_plugins st ++ [(name, newRecord name b)], none)

/-- The four ways stop_plugin can end: the early return when the name is not
registered after the initial reap, and the three shutdown outcomes. -/
inductive StopOutcome where
  | notRunning
  | stoppedCleanly
  | killedForcefully
  | abandoned
deriving DecidableEq, Repr

/-- PluginManager.stop_plugin (pplugins.py lines 213-246).  Reaps first; if
the name is gone it logs that the plugin is not running and returns.
Otherwise _stop_plugin delivers the clean-shutdown sentinel and joins for
the grace period (the process exits iff diesOnClean); if still alive the
process is terminated and joined again (it exits iff diesOnTerm); the final
is_alive() check selects between the abandoned error log and the clean
success log, with the forceful branch distinguished by its SIGTERM log.  The
registry entry is deleted at the end of the escalation in every branch. -/
def stop_plugin (st : Registry) (name : String) : Registry × StopOutcome :=
  match lookupReg (reap_plugins st) name with
  | none => (reap_plugins st, StopOutcome.notRunning)
  | some r =>
      (eraseReg (reap_plugins st) name,
       if r.process.alive && !r.process.diesOnClean then
         (if !r.process.diesOnTerm then StopOutcome.abandoned
          else StopOutcome.killedForcefully)
       else StopOutcome.stoppedCleanly)

/-- The data carried by a successfully constructed PluginError exception:
PluginError.init stores the message (args[0]) and the plugin. -/
structure PluginErrorVal where
  message : String
  plugin : String
deriving DecidableEq, Repr

/-- Python-level exceptions that the embedded code can raise. -/
inductive PyErr where
  | typeError
  | pluginError (e : PluginErrorVal)
deriving DecidableEq, Repr

/-- Calling PluginError with a positional argument list: PluginError.init
accepts exactly the two
positional arguments (message, plugin) (pplugins.py lines 8-13); any other
arity raises TypeError at the call.  Class-valued arguments are represented
by their name string. -/
def callPluginError (args : List String) : Except PyErr PluginErrorVal :=
  match args with
  | [message, plugin] => Except.ok ⟨message, plugin⟩
  | _ => Except.error PyErr.typeError

/-- Subscripting a Python str with a str key, as in key-string indexing:
always raises TypeError (string indices must be integers), never returns. -/
def strSubscript (_s : String) (_key : String) : Except PyErr Empty :=
  Except.error PyErr.typeError

/-- The body of the for-loop in process_messages.  Iterating a dict yields
its keys, so each loop variable plugin is the name string, and the very
first operation on it, the subscript in while not plugin-sub-messages
.empty(), raises TypeError.  The ok branches are unreachable. -/
def drainLoop : List String → Except PyErr (List (String × String))
  | [] => Except.ok []
  | key :: _ =>
      match strSubscript key "messages" with
      | Except.error e => Except.error e
      | Except.ok v => nomatch v

/-- PluginManager.process_messages (pplugins.py lines 253-259): reaps, then
runs for plugin in self.plugins, draining plugin's message queue and calling
self._process_message(name, message) for each message.  On success the
result lists the handler invocations in order. -/
def process_messages (st : Registry) : Except PyErr (List (String × String)) :=
  drainLoop ((reap_plugins st).map Prod.fst)

/-- Modelled from the spec and the repository's own test
(test_pluginmanager_process_messages): the intended loop iterates the
registry's records, drains each message queue in FIFO order and invokes the
handler once per message with the owning plugin's name. -/
def process_messages_intended (st : Registry) : List (String × String) :=
  (reap_plugins st).foldr
    (fun entry acc => entry.2.messages.map (fun m => (entry.1, m)) ++ acc) []

/-- A member of a loaded Python module as inspect.getmembers presents it:
whether it is a class, and the names of its immediate base classes. -/
structure PyObj where
  isClass : Bool
  bases : List String
deriving DecidableEq, Repr

/-- PluginRunner._is_plugin (pplugins.py lines 94-96): inspect.isclass(obj)
and self.plugin_class in obj.__bases__ (classes represented by name). -/
def PluginRunner.is_plugin (plugin_class : String) (obj : PyObj) : Bool :=
  obj.isClass && obj.bases.contains plugin_class

/-- PluginRunner._find_plugin (pplugins.py lines 98-116): takes the first
member of the loaded module satisfying _is_plugin; if none exists it
executes raise PluginError(message, self.plugin_class, self.plugin), a call
with three arguments to the two-argument constructor. -/
def PluginRunner.find_plugin (module : List PyObj) (plugin_class : String)
    (plugin : String) : Except PyErr PyObj :=
  match module.find? (PluginRunner.is_plugin plugin_class) with
  | some cls => Except.ok cls
  | none =>
      match callPluginError
          ["Unable to find a Plugin class (a class subclassing %s)",
           plugin_class, plugin] with
      | Except.ok e => Except.error (PyErr.pluginError e)
      | Except.error err => Except.error err

/-- A logging.LogRecord as it matters here: logger name, numeric level, the
unformatted msg plus args, and the exception info with its cached rendered
text. -/
structure LogRecord where
  name : String
  levelno : Nat
  msg : String
  args : Option (List String)
  exc_info : Option String
  exc_text : Option String
deriving DecidableEq, Repr

/-- Percent-s interpolation, the relevant fragment of Python's percent
operator on strings: each occurrence of percent-s consumes one argument. -/
def renderPct : List Char → List String → String
  | [], _ => ""
  | '%' :: 's' :: rest, a :: as => a ++ renderPct rest as
  | c :: rest, as => String.singleton c ++ renderPct rest as

/-- LogRecord.getMessage: returns str(msg), interpolated with args when args
is truthy (neither None nor empty). -/
def LogRecord.getMessage (r : LogRecord) : String :=
  match r.args with
  | none => r.msg
  | some [] => r.msg
  | some as => renderPct r.msg.toList as

/-- ProcessLogger.isEnabledFor (pplugins.py lines 297-303): accepts records
of any log level; filtering happens back in the parent process. -/
def ProcessLogger.isEnabledFor (_level : Nat) : Bool :=
  true

/-- ProcessLogger.handle (pplugins.py lines 305-323): if exc_info is set,
the default formatter caches the rendered exception as exc_text and
exc_info is cleared; then the dict sent over the queue carries
msg = record.getMessage() and args = None.  The wire form reuses the record
shape, since logging.makeLogRecord rebuilds a record from that dict. -/
def ProcessLogger.handle (r : LogRecord) : LogRecord :=
  let r1 : LogRecord :=
    match r.exc_info with
    | some info => { r with exc_text := some info, exc_info := none }
    | none => r
  { r1 with msg := r1.getMessage, args := none }

/-- The worker-side emission step of logging.Logger: a record reaches
handle (and hence the queue) exactly when isEnabledFor passes it. -/
def workerEmit (r : LogRecord) : Option LogRecord :=
  if ProcessLogger.isEnabledFor r.levelno then some (ProcessLogger.handle r)
  else none

/-- A record as re-emitted through the host's logging path, keyed by the
original logger name and level. -/
structure Emission where
  name : String
  levelno : Nat
  message : String
deriving DecidableEq, Repr

/-- The per-record body of ProcessLogger.daemon: record =
logging.makeLogRecord(record_data); logger = logging.getLogger(record.name);
if logger.isEnabledFor(record.levelno): logger.handle(record).  The host
logger's level filter is the enabled parameter. -/
def daemonProcessOne (enabled : String → Nat → Bool) (d : LogRecord) :
    Option Emission :=
  if enabled d.name d.levelno then some ⟨d.name, d.levelno, d.getMessage⟩
  else none

/-- What log_queue.get() can yield to the consumer loop on one iteration:
a record dict, a dict whose processing raises an Exception, the None
shutdown sentinel, or EOFError from a broken queue endpoint. -/
inductive LogEvent where
  | record (d : LogRecord)
  | malformed
  | sentinel
  | eof
deriving DecidableEq, Repr

/-- Observable actions of the consumer loop: a record re-emitted through the
host sink, or the logging.exception call in the generic handler. -/
inductive DaemonOut where
  | emit (e : Emission)
  | errorLogged
deriving DecidableEq, Repr

/-- ProcessLogger.daemon (pplugins.py lines 325-341) over the sequence of
events its queue delivers: None breaks the loop, EOFError breaks the loop,
any other Exception is logged and the loop continues, and a well-formed
record is re-emitted if the host logger's filter passes it. -/
def daemonRun (enabled : String → Nat → Bool) : List LogEvent → List DaemonOut
  | [] => []
  | LogEvent.sentinel :: _ => []
  | LogEvent.eof :: _ => []
  | LogEvent.malformed :: rest => DaemonOut.errorLogged :: daemonRun enabled rest
  | LogEvent.record d :: rest =>
      (match daemonProcessOne enabled d with
       | some e => [DaemonOut.emit e]
       | none => []) ++ daemonRun enabled rest

/-- The output one event contributes when the loop reaches it. -/
def eventOut (enabled : String → Nat → Bool) : LogEvent → List DaemonOut
  | LogEvent.record d =>
      match daemonProcessOne enabled d with
      | some e => [DaemonOut.emit e]
      | none => []
  | LogEvent.malformed => [DaemonOut.errorLogged]
  | LogEvent.sentinel => []
  | LogEvent.eof => []

/-- Concatenated per-event outputs: what a loop isolating every failure to
its own iteration would produce. -/
def eventOuts (enabled : String → Nat → Bool) : List LogEvent → List DaemonOut
  | [] => []
  | e :: rest => eventOut enabled e ++ eventOuts enabled rest

/-- Event streams containing neither of the two loop-breaking events, the
None sentinel and EOFError. -/
def noBreak : List LogEvent → Bool
  | [] => true
  | LogEvent.sentinel :: _ => false
  | LogEvent.eof :: _ => false
  | _ :: rest => noBreak rest

/-- A threading.Timer as created by __start_reaping_thread: per the Python
library, a started timer runs its action exactly once, delay seconds after
start(), unless cancelled. -/
structure Timer where
  delay : Nat
deriving DecidableEq, Repr

/-- Times (seconds after the scope opens) at which a started one-shot timer
fires, within a horizon during which the scope stays open. -/
def timerFirings (t : Timer) (horizon : Nat) : List Nat :=
  if t.delay ≤ horizon then [t.delay] else []

/-- PluginManager.__start_reaping_thread (pplugins.py lines 159-161):
threading.Timer(5, self.reap_plugins), started once from __enter__;
reap_plugins never re-arms it. -/
def reapTimer : Timer :=
  ⟨5⟩

/-- Times at which the background machinery invokes reap_plugins while the
manager's context stays open for horizon seconds. -/
def reapFirings (horizon : Nat) : List Nat :=
  timerFirings reapTimer horizon

/-- Modelled from the spec: the reaper runs on a fixed interval for the
lifetime of the manager's active scope, so with interval 5 it fires at
5, 10, 15, ... up to the horizon. -/
def periodicFirings (interval horizon : Nat) : List Nat :=
  (List.range (horizon / interval)).map (fun i => (i + 1) * interval)

/-- A process handle that is no longer alive (the hosted plugin exited on
its own). -/
def deadProc : Process :=
  { daemon := true, alive := false, diesOnClean := true, diesOnTerm := true }

/-- A live, cooperative process: exits within the grace period once the
clean-shutdown sentinel arrives. -/
def aliveProc : Process :=
  { daemon := true, alive := true, diesOnClean := true, diesOnTerm := true }

/-- A registry entry whose process has already died. -/
def deadRec : PluginRecord :=
  ⟨"p", [], [], deadProc⟩

/-- A registry entry with a live cooperative process. -/
def aliveRec : PluginRecord :=
  ⟨"p", [], [], aliveProc⟩

/-- Registry holding one entry, name p, whose process has already died. -/
def stDeadP : Registry :=
  [("p", deadRec)]

/-- Registry holding one live entry under name p. -/
def stAliveP : Registry :=
  [("p", aliveRec)]

/-- Registry holding one dead entry under name y, used to show that a
failing start call still mutates the registry through its initial reap. -/
def stDeadY : Registry :=
  [("y", ⟨"y", [], [], deadProc⟩)]

/-- The repository's own test input for process_messages: plugin test with
one queued message. -/
def msgRec : PluginRecord :=
  ⟨"test", [], ["test message"], aliveProc⟩

/-- A loaded module containing a single class that does not subclass
Plugin. -/
def moduleNoPlugin : List PyObj :=
  [⟨true, ["object"]⟩]

/-- A sample log record from a worker. -/
def sampleRec : LogRecord :=
  ⟨"worker.alpha", 20, "hello", none, none, none⟩

/-- A second sample log record from a different worker. -/
def sampleRec2 : LogRecord :=
  ⟨"worker.beta", 30, "count %s", some ["7"], none, none⟩

theorem lookupReg_eq_none_of_contains_false {st : Registry} {k : String}
    (h : containsReg st k = false) : lookupReg st k = none := by
  cases hl : lookupReg st k with
  | none => rfl
  | some v => simp [containsReg, hl] at h

theorem containsReg_eq_true_of_lookup {st : Registry} {k : String}
    {v : PluginRecord} (h : lookupReg st k = some v) :
    containsReg st k = true := by
  simp [containsReg, h]

theorem lookupReg_reap_of_alive {st : Registry} {k : String} {v : PluginRecord}
    (hl : lookupReg st k = some v) (ha : v.process.alive = true) :
    lookupReg (reap_plugins st) k = some v := by
  induction st with
  | nil => simp [lookupReg] at hl
  | cons hd tl ih =>
    obtain ⟨k1, v1⟩ := hd
    by_cases hk : k1 = k
    · subst hk
      simp [lookupReg] at hl
      subst hl
      simp [reap_plugins, ha, lookupReg]
    · simp [lookupReg, hk] at hl
      by_cases hv : v1.process.alive
      · simp [reap_plugins, hv, lookupReg, hk, ih hl]
      · simp [reap_plugins, hv, ih hl]

theorem lookupReg_reap_none {st : Registry} {k : String}
    (h : lookupReg st k = none) : lookupReg (reap_plugins st) k = none := by
  induction st with
  | nil => simp [reap_plugins, lookupReg]
  | cons hd tl ih =>
    obtain ⟨k1, v1⟩ := hd
    by_cases hk : k1 = k
    · subst hk
      simp [lookupReg] at h
    · simp [lookupReg, hk] at h
      by_cases hv : v1.process.alive
      · simp [reap_plugins, hv, lookupReg, hk, ih h]
      · simp [reap_plugins, hv, ih h]

theorem lookupReg_append_of_none {a b : Registry} {k : String}
    (h : lookupReg a k = none) : lookupReg (a ++ b) k = lookupReg b k := by
  induction a with
  | nil => simp
  | cons hd tl ih =>
    obtain ⟨k1, v1⟩ := hd
    by_cases hk : k1 = k
    · subst hk
      simp [lookupReg] at h
    · simp [lookupReg, hk] at h
      simp [lookupReg, hk, ih h]

theorem lookupReg_eraseReg_self (st : Registry) (k : String) :
    lookupReg (eraseReg st k) k = none := by
  induction st with
  | nil => rfl
  | cons hd tl ih =>
    obtain ⟨k1, v1⟩ := hd
    by_cases hk : k1 = k
    · simp [eraseReg, hk, ih]
    · simp [eraseReg, hk, lookupReg, ih]

theorem reap_append (a b : Registry) :
    reap_plugins (a ++ b) = reap_plugins a ++ reap_plugins b := by
  induction a with
  | nil => rfl
  | cons hd tl ih =>
    obtain ⟨k1, v1⟩ := hd
    by_cases hv : v1.process.alive
    · simp [reap_plugins, hv, ih]
    · simp [reap_plugins, hv, ih]

theorem allAlive_reap (st : Registry) : allAlive (reap_plugins st) = true := by
  induction st with
  | nil => rfl
  | cons hd tl ih =>
    obtain ⟨k1, v1⟩ := hd
    by_cases hv : v1.process.alive
    · simp [reap_plugins, hv, allAlive, ih]
    · simp [reap_plugins, hv, ih]

theorem reap_of_allAlive {st : Registry} (h : allAlive st = true) :
    reap_plugins st = st := by
  induction st with
  | nil => rfl
  | cons hd tl ih =>
    obtain ⟨k1, v1⟩ := hd
    simp [allAlive] at h
    simp [reap_plugins, h.1, ih h.2]

theorem reap_idem_aux (st : Registry) :
    reap_plugins (reap_plugins st) = reap_plugins st :=
  reap_of_allAlive (allAlive_reap st)

theorem countKey_append (a b : Registry) (k : String) :
    countKey (a ++ b) k = countKey a k + countKey b k := by
  induction a with
  | nil => simp [countKey]
  | cons hd tl ih =>
    obtain ⟨k1, v1⟩ := hd
    simp [countKey, ih]
    omega

theorem countKey_eq_zero_of_lookup_none {st : Registry} {k : String}
    (h : lookupReg st k = none) : countKey st k = 0 := by
  induction st with
  | nil => rfl
  | cons hd tl ih =>
    obtain ⟨k1, v1⟩ := hd
    by_cases hk : k1 = k
    · subst hk
      simp [lookupReg] at h
    · simp [lookupReg, hk] at h
      simp [countKey, hk, ih h]

theorem start_plugin_already_eq {eps : Type} {st : Registry} {n : String}
    (ctor : Except eps PluginBehavior)
    (h : containsReg (reap_plugins st) n = true) :
    start_plugin st n ctor
      = (reap_plugins st, some (StartErr.alreadyRunning n)) := by
  simp [start_plugin, h]

theorem start_plugin_ok_eq {eps : Type} {st : Registry} {n : String}
    (b : PluginBehavior) (h : containsReg (reap_plugins st) n = false) :
    start_plugin st n (Except.ok b : Except eps PluginBehavior)
      = (reap_plugins st ++ [(n, newRecord n b)], none) := by
  simp [start_plugin, h]

theorem stop_plugin_found_eq {st : Registry} {n : String} {r : PluginRecord}
    (h : lookupReg (reap_plugins st) n = some r) :
    stop_plugin st n
      = (eraseReg (reap_plugins st) n,
         if r.process.alive && !r.process.diesOnClean then
           (if !r.process.diesOnTerm then StopOutcome.abandoned
            else StopOutcome.killedForcefully)
         else StopOutcome.stoppedCleanly) := by
  simp [stop_plugin, h]

theorem reap_cons_alive {k : String} {v : PluginRecord} (st : Registry)
    (h : v.process.alive = true) :
    reap_plugins ((k, v) :: st) = (k, v) :: reap_plugins st := by
  simp [reap_plugins, h]

theorem newRecord_alive (n : String) (b : PluginBehavior) :
    (newRecord n b).process.alive = true :=
  rfl

theorem daemonRun_no_break (enabled : String → Nat → Bool) :
    ∀ evs : List LogEvent, noBreak evs = true →
      daemonRun enabled evs = eventOuts enabled evs := by
  intro evs
  induction evs with
  | nil => intro _; rfl
  | cons e rest ih =>
    intro h
    cases e with
    | record d =>
        simp only [noBreak] at h
        simp [daemonRun, eventOuts, eventOut, ih h]
    | malformed =>
        simp only [noBreak] at h
        simp [daemonRun, eventOuts, eventOut, ih h]
    | sentinel => simp [noBreak] at h
    | eof => simp [noBreak] at h

theorem noBreak_map_record (f : LogRecord → LogRecord) (rs : List LogRecord) :
    noBreak (rs.map (fun x => LogEvent.record (f x))) = true := by
  induction rs with
  | nil => rfl
  | cons a rest ih => simpa [noBreak] using ih

/-- C1, counterexample: the claim quantifies over every name present in the
registry, but for an entry whose process has already died the initial reap
removes it and stop_plugin returns after logging that the plugin is not
running — none of the three claimed outcomes is reported, even though the
entry is indeed gone. -/
theorem stop_plugin_dead_entry_cx :
    containsReg stDeadP "p" = true ∧
    (stop_plugin stDeadP "p").2 = StopOutcome.notRunning ∧
    (stop_plugin stDeadP "p").2 ≠ StopOutcome.stoppedCleanly ∧
    (stop_plugin stDeadP "p").2 ≠ StopOutcome.killedForcefully ∧
    (stop_plugin stDeadP "p").2 ≠ StopOutcome.abandoned ∧
    containsReg (stop_plugin stDeadP "p").1 "p" = false := by
  decide

/-- C1, amended: for every name registered with a process that is still
alive when stop_plugin is called, the call ends in exactly one of the three
outcomes stopped cleanly, killed forcefully, or abandoned — never the
not-running early return — and the registry entry is removed in all three. -/
theorem stop_plugin_outcomes (st : Registry) (n : String) (r : PluginRecord)
    (hl : lookupReg st n = some r) (ha : r.process.alive = true) :
    ((stop_plugin st n).2 = StopOutcome.stoppedCleanly ∨
     (stop_plugin st n).2 = StopOutcome.killedForcefully ∨
     (stop_plugin st n).2 = StopOutcome.abandoned) ∧
    (stop_plugin st n).2 ≠ StopOutcome.notRunning ∧
    lookupReg (stop_plugin st n).1 n = none := by
  have hlr := lookupReg_reap_of_alive hl ha
  rw [stop_plugin_found_eq hlr]
  refine ⟨?_, ?_, lookupReg_eraseReg_self (reap_plugins st) n⟩
  · by_cases h2 : (r.process.alive && !r.process.diesOnClean) = true
    · by_cases h3 : (!r.process.diesOnTerm) = true
      · right; right; simp [h2, h3]
      · right; left; simp [h2, h3]
    · left; simp [h2]
  · by_cases h2 : (r.process.alive && !r.process.diesOnClean) = true
    · by_cases h3 : (!r.process.diesOnTerm) = true <;> simp [h2, h3]
    · simp [h2]

/-- C1, witness: a live cooperative plugin under name p. -/
theorem stop_plugin_outcomes_witness :
    lookupReg stAliveP "p" = some aliveRec ∧
    aliveRec.process.alive = true ∧
    (((stop_plugin stAliveP "p").2 = StopOutcome.stoppedCleanly ∨
      (stop_plugin stAliveP "p").2 = StopOutcome.killedForcefully ∨
      (stop_plugin stAliveP "p").2 = StopOutcome.abandoned) ∧
     (stop_plugin stAliveP "p").2 ≠ StopOutcome.notRunning ∧
     lookupReg (stop_plugin stAliveP "p").1 "p" = none) :=
  ⟨by decide, by decide,
   stop_plugin_outcomes stAliveP "p" aliveRec (by decide) (by decide)⟩

/-- C2: when start_plugin has succeeded for name n and left registry st1, a
second start_plugin for n before any stop or process death raises the
already-running PluginError, leaves the registry exactly st1, and st1 holds
exactly one entry for n. -/
theorem start_plugin_twice {eps1 eps2 : Type} (st st1 : Registry) (n : String)
    (ctor1 : Except eps1 PluginBehavior) (ctor2 : Except eps2 PluginBehavior)
    (h : start_plugin st n ctor1 = (st1, none)) :
    (start_plugin st1 n ctor2).2 = some (StartErr.alreadyRunning n) ∧
    (start_plugin st1 n ctor2).1 = st1 ∧
    countKey st1 n = 1 := by
  have hc : containsReg (reap_plugins st) n = false := by
    by_contra hc'
    rw [Bool.not_eq_false] at hc'
    rw [start_plugin_already_eq ctor1 hc'] at h
    exact Option.noConfusion (congrArg Prod.snd h)
  have hnone := lookupReg_eq_none_of_contains_false hc
  cases ctor1 with
  | error e =>
      rw [show start_plugin st n (Except.error e : Except eps1 PluginBehavior)
            = (reap_plugins st, some (StartErr.ctorRaised e)) from by
          simp [start_plugin, hc]] at h
      exact Option.noConfusion (congrArg Prod.snd h)
  | ok b =>
      rw [start_plugin_ok_eq b hc] at h
      have hst1 : st1 = reap_plugins st ++ [(n, newRecord n b)] :=
        (congrArg Prod.fst h).symm
      subst hst1
      have hreap1 : reap_plugins (reap_plugins st ++ [(n, newRecord n b)])
          = reap_plugins st ++ [(n, newRecord n b)] := by
        rw [reap_append, reap_idem_aux,
            reap_cons_alive [] (newRecord_alive n b)]
        rfl
      have hlook1 : lookupReg (reap_plugins st ++ [(n, newRecord n b)]) n
          = some (newRecord n b) := by
        rw [lookupReg_append_of_none hnone]
        simp [lookupReg]
      have hcont : containsReg
          (reap_plugins (reap_plugins st ++ [(n, newRecord n b)])) n = true := by
        rw [hreap1]
        exact containsReg_eq_true_of_lookup hlook1
      rw [start_plugin_already_eq ctor2 hcont, hreap1]
      refine ⟨rfl, rfl, ?_⟩
      rw [countKey_append, countKey_eq_zero_of_lookup_none hnone]
      simp [countKey]

/-- C2, witness: starting p twice on an initially empty registry. -/
theorem start_plugin_twice_witness :
    start_plugin ([] : Registry) "p"
        (Except.ok ⟨true, true⟩ : Except String PluginBehavior)
      = ([("p", newRecord "p" ⟨true, true⟩)], none) ∧
    ((start_plugin [("p", newRecord "p" ⟨true, true⟩)] "p"
        (Except.ok ⟨true, true⟩ : Except String PluginBehavior)).2
        = some (StartErr.alreadyRunning "p") ∧
     (start_plugin [("p", newRecord "p" ⟨true, true⟩)] "p"
        (Except.ok ⟨true, true⟩ : Except String PluginBehavior)).1
        = [("p", newRecord "p" ⟨true, true⟩)] ∧
     countKey [("p", newRecord "p" ⟨true, true⟩)] "p" = 1) :=
  ⟨by decide,
   start_plugin_twice [] [("p", newRecord "p" ⟨true, true⟩)] "p"
     (Except.ok ⟨true, true⟩ : Except String PluginBehavior)
     (Except.ok ⟨true, true⟩ : Except String PluginBehavior) (by decide)⟩

/-- C3: on the repository's own test input — one living plugin named test
with one queued message — process_messages raises TypeError, because the
for-loop iterates the registry's keys and subscripts the key string; the
handler is never invoked, while the intended drain (what the test asserts)
would deliver the pair test, test message. -/
theorem process_messages_type_error :
    process_messages [("test", msgRec)] = Except.error PyErr.typeError ∧
    process_messages_intended [("test", msgRec)]
      = [("test", "test message")] := by
  constructor
  · rfl
  · rfl

/-- C4: on a module with no qualifying Plugin subclass, _find_plugin does
not produce a PluginError naming the requested plugin: its raise statement
passes three arguments to the two-argument PluginError constructor, so the
call itself raises TypeError. -/
theorem find_plugin_no_class_type_error :
    PluginRunner.find_plugin moduleNoPlugin "Plugin" "missing"
      = Except.error PyErr.typeError ∧
    ∀ ev : PluginErrorVal,
      PluginRunner.find_plugin moduleNoPlugin "Plugin" "missing"
        ≠ Except.error (PyErr.pluginError ev) := by
  have h1 : PluginRunner.find_plugin moduleNoPlugin "Plugin" "missing"
      = Except.error PyErr.typeError := rfl
  refine ⟨h1, ?_⟩
  intro ev hev
  rw [h1] at hev
  simp at hev

/-- C5: the worker-side ProcessLogger accepts every level and forwards the
flattened record; the host-side consumer re-emits it attributed to the same
logger name, at the same level, with the same rendered message, subject
only to the host logger's own filter; and a whole stream of such records
from any number of workers is processed record by record. -/
theorem log_record_roundtrip (enabled : String → Nat → Bool) (r : LogRecord)
    (rs : List LogRecord) :
    workerEmit r = some (ProcessLogger.handle r) ∧
    ProcessLogger.isEnabledFor r.levelno = true ∧
    daemonProcessOne enabled (ProcessLogger.handle r)
      = (if enabled r.name r.levelno then
           some ⟨r.name, r.levelno, r.getMessage⟩
         else none) ∧
    daemonRun enabled
        (rs.map (fun x => LogEvent.record (ProcessLogger.handle x)))
      = eventOuts enabled
          (rs.map (fun x => LogEvent.record (ProcessLogger.handle x))) := by
  have hname : (ProcessLogger.handle r).name = r.name := by
    cases hx : r.exc_info <;> simp [ProcessLogger.handle, hx]
  have hlvl : (ProcessLogger.handle r).levelno = r.levelno := by
    cases hx : r.exc_info <;> simp [ProcessLogger.handle, hx]
  have hmsg : (ProcessLogger.handle r).getMessage = r.getMessage := by
    cases hx : r.exc_info <;>
      simp [ProcessLogger.handle, LogRecord.getMessage, hx]
  refine ⟨rfl, rfl, ?_, daemonRun_no_break enabled _
    (noBreak_map_record ProcessLogger.handle rs)⟩
  simp [daemonProcessOne, hname, hlvl, hmsg]

/-- C6, counterexample: with a dead entry y in the registry, a start call
whose process construction raises does propagate the failure, but the
registry is not left exactly as it was before the call — the initial reap
has already dropped y. -/
theorem start_plugin_ctor_raises_cx :
    (start_plugin stDeadY "x"
        (Except.error "boom" : Except String PluginBehavior)).2
      = some (StartErr.ctorRaised "boom") ∧
    (start_plugin stDeadY "x"
        (Except.error "boom" : Except String PluginBehavior)).1
      ≠ stDeadY := by
  decide

/-- C6, amended: if constructing the worker process inside start_plugin
raises, the exception propagates to the caller unchanged and no entry for
the requested name is registered; the only registry change is the removal
of already-dead entries by the initial reap, so if every registered process
is alive the registry is unchanged. -/
theorem start_plugin_ctor_raises {eps : Type} (st : Registry) (n : String)
    (e : eps) (h : containsReg (reap_plugins st) n = false) :
    (start_plugin st n (Except.error e : Except eps PluginBehavior)).2
      = some (StartErr.ctorRaised e) ∧
    (start_plugin st n (Except.error e : Except eps PluginBehavior)).1
      = reap_plugins st ∧
    containsReg
      (start_plugin st n (Except.error e : Except eps PluginBehavior)).1 n
      = false ∧
    (allAlive st = true →
      (start_plugin st n (Except.error e : Except eps PluginBehavior)).1 = st) := by
  have h1 : start_plugin st n (Except.error e : Except eps PluginBehavior)
      = (reap_plugins st, some (StartErr.ctorRaised e)) := by
    simp [start_plugin, h]
  refine ⟨?_, ?_, ?_, ?_⟩
  · rw [h1]
  · rw [h1]
  · rw [h1]
    exact h
  · intro hall
    rw [h1]
    exact reap_of_allAlive hall

/-- C6, witness: failing constructor on an all-alive one-entry registry. -/
theorem start_plugin_ctor_raises_witness :
    containsReg (reap_plugins stAliveP) "x" = false ∧
    ((start_plugin stAliveP "x"
        (Except.error "boom" : Except String PluginBehavior)).2
        = some (StartErr.ctorRaised "boom") ∧
     (start_plugin stAliveP "x"
        (Except.error "boom" : Except String PluginBehavior)).1
        = reap_plugins stAliveP ∧
     containsReg (start_plugin stAliveP "x"
        (Except.error "boom" : Except String PluginBehavior)).1 "x"
        = false ∧
     (allAlive stAliveP = true →
       (start_plugin stAliveP "x"
          (Except.error "boom" : Except String PluginBehavior)).1 = stAliveP)) :=
  ⟨by decide, start_plugin_ctor_raises stAliveP "x" "boom" (by decide)⟩

/-- C7: the reaping machinery started by the manager's context fires
reap_plugins exactly once, five seconds after the scope opens, because
threading.Timer is one-shot and is never re-armed; over a ten-second scope
this differs from the specified fixed five-second interval, which would
fire at five and at ten seconds. -/
theorem reaper_fires_once :
    reapFirings 10 = [5] ∧
    periodicFirings 5 10 = [5, 10] ∧
    reapFirings 10 ≠ periodicFirings 5 10 := by
  decide

/-- C8: reaping is idempotent — with no liveness change in between, a
second reap_plugins removes nothing and changes no entry. -/
theorem reap_plugins_idempotent (st : Registry) :
    reap_plugins (reap_plugins st) = reap_plugins st :=
  reap_idem_aux st

/-- C9, counterexample: a broken channel endpoint (EOFError from
log_queue.get) is tolerated — the consumer exits its loop rather than
crashing — but nothing is logged about it, contrary to the claim that it is
tolerated and logged. -/
theorem daemon_eof_unlogged_cx :
    daemonRun (fun _ _ => true) [LogEvent.eof] = [] ∧
    DaemonOut.errorLogged ∉ daemonRun (fun _ _ => true) [LogEvent.eof] := by
  refine ⟨rfl, ?_⟩
  simp [daemonRun]

/-- C9, amended: a record whose processing raises is logged and does not
stop the forwarding of any subsequent records — the loop output after a
malformed record is the error log followed by every later record's own
output — while a broken channel endpoint terminates the consumer cleanly
and silently instead of crashing it or being logged. -/
theorem daemon_isolates_failures (enabled : String → Nat → Bool)
    (evs rest : List LogEvent) (h : noBreak evs = true) :
    daemonRun enabled (LogEvent.malformed :: evs)
      = DaemonOut.errorLogged :: eventOuts enabled evs ∧
    daemonRun enabled (LogEvent.eof :: rest) = [] ∧
    DaemonOut.errorLogged ∉ daemonRun enabled (LogEvent.eof :: rest) := by
  refine ⟨?_, rfl, ?_⟩
  · simp [daemonRun, daemonRun_no_break enabled evs h]
  · simp [daemonRun]

/-- C9, witness: a malformed record followed by two genuine records from
two different workers. -/
theorem daemon_isolates_failures_witness :
    noBreak [LogEvent.record sampleRec, LogEvent.record sampleRec2] = true ∧
    (daemonRun (fun _ _ => true)
        (LogEvent.malformed ::
          [LogEvent.record sampleRec, LogEvent.record sampleRec2])
      = DaemonOut.errorLogged ::
          eventOuts (fun _ _ => true)
            [LogEvent.record sampleRec, LogEvent.record sampleRec2] ∧
     daemonRun (fun _ _ => true)
        (LogEvent.eof :: [LogEvent.record sampleRec]) = [] ∧
     DaemonOut.errorLogged ∉ daemonRun (fun _ _ => true)
        (LogEvent.eof :: [LogEvent.record sampleRec])) :=
  ⟨by decide,
   daemon_isolates_failures (fun _ _ => true)
     [LogEvent.record sampleRec, LogEvent.record sampleRec2]
     [LogEvent.record sampleRec] (by decide)⟩

/-- C10: the runner constructor sets the daemon flag, and consequently
every process a successful start_plugin registers carries daemon = true. -/
theorem plugin_runner_daemon_flag {eps : Type} (st : Registry) (n : String)
    (b : PluginBehavior) (h : containsReg (reap_plugins st) n = false) :
    (PluginRunner.init b).daemon = true ∧
    ∃ r, lookupReg
        (start_plugin st n (Except.ok b : Except eps PluginBehavior)).1 n
        = some r ∧ r.process.daemon = true := by
  have hnone := lookupReg_eq_none_of_contains_false h
  refine ⟨rfl, newRecord n b, ?_, rfl⟩
  rw [start_plugin_ok_eq b h]
  show lookupReg (reap_plugins st ++ [(n, newRecord n b)]) n
    = some (newRecord n b)
  rw [lookupReg_append_of_none hnone]
  simp [lookupReg]

/-- C10, witness: starting p on an empty registry. -/
theorem plugin_runner_daemon_flag_witness :
    containsReg (reap_plugins ([] : Registry)) "p" = false ∧
    ((PluginRunner.init ⟨true, true⟩).daemon = true ∧
     ∃ r, lookupReg
        (start_plugin ([] : Registry) "p"
          (Except.ok ⟨true, true⟩ : Except String PluginBehavior)).1 "p"
        = some r ∧ r.process.daemon = true) :=
  ⟨by decide, plugin_runner_daemon_flag [] "p" ⟨true, true⟩ (by decide)⟩

end PPlugins
